import Mathlib

/-!
Shallow embedding of the arena debug wrapper (`src/arena/debug.rs`) of the
`edit` allocation subsystem, together with the parts of the underlying
`release::Arena` contract that the wrapper delegates to.

The debug wrapper `Arena` is an enum with two variants:
  * `Delegated { delegate: &'static release::Arena, borrow: usize }` — a
    handle that borrows a shared underlying arena and remembers the borrow
    generation number captured at construction;
  * `Owned { arena: release::Arena }` — a handle that exclusively owns its
    arena.

Shared mutability through the `delegate` reference (a `Cell<usize>` borrow
counter plus the arena's own state) is rendered by explicit state passing:
every operation on a handle takes the shared underlying `release.Arena` as
an extra argument and returns the updated one.  A `Delegated` handle in this
model stores only its borrow number; the shared arena it references is the
explicit state argument.  Fatal assertion failures (Rust `assert!` /
`assert_eq!`) are rendered as `Except.error` with the assertion message;
recoverable allocation failure (`AllocError`) is an inner `Except` value, so
the two error channels stay distinct.

`usize` is modelled as `Nat` with wrapping arithmetic `% 2 ^ 64` where the
source performs arithmetic on the counter.
-/

/-- The modulus of `usize` arithmetic (64-bit platform). -/
def USIZE : Nat := 2 ^ 64

/-- Rust `std::alloc::AllocError`: a unit struct signalling recoverable
allocation failure. -/
inductive AllocError where
  | mk
deriving DecidableEq, Repr

namespace release

/-- Modelled from the spec: the release (non-debug) `release::Arena` is not
part of the given sources; §3/§4.1 of the spec describe it as a contiguous
buffer of fixed `capacity`, a watermark `offset` starting at `0`, and a
shared `borrows` generation counter (`Cell<usize>` in the source, read and
written by the debug wrapper).  Buffer contents are modelled as a list of
bytes. -/
structure Arena where
  capacity : Nat
  offset : Nat
  borrows : Nat
  data : List Nat
deriving DecidableEq, Repr

/-- Modelled from the spec: `release::Arena::empty()` — a zero-capacity
placeholder arena. -/
def Arena.empty : Arena :=
  { capacity := 0, offset := 0, borrows := 0, data := [] }

/-- The next `align`-aligned position at or after `off` (for `align > 0`). -/
def alignUp (off align : Nat) : Nat :=
  ((off + align - 1) / align) * align

/-- Modelled from the spec: `release::Arena::reset(to)` rewinds the
watermark to `to` unconditionally. -/
def Arena.reset (s : Arena) (to' : Nat) : Arena :=
  { s with offset := to' }

/-- Modelled from the spec: `release::Arena::alloc_raw(size, align)` advances
the watermark from the current offset to the next `align`-aligned position,
reserving `size` bytes starting there; it fails with a recoverable
out-of-capacity error, leaving the watermark unchanged, when the new end
would exceed `capacity`.  The returned pointer is modelled as its byte
offset from the buffer base. -/
def Arena.alloc_raw (s : Arena) (size align : Nat) :
    Except AllocError Nat × Arena :=
  let aligned := alignUp s.offset align
  if aligned + size > s.capacity then
    (.error .mk, s)
  else
    (.ok aligned, { s with offset := aligned + size })

/-- Modelled from the spec: `release::Arena::deallocate` is always a no-op —
individual objects are never freed. -/
def Arena.deallocate (s : Arena) (_ptr _size _align : Nat) : Arena :=
  s

/-- Overwrite `len` bytes starting at `dst` with the bytes starting at
`src` (used by the non-tail `grow` path). -/
def copyRange (l : List Nat) (src dst len : Nat) : List Nat :=
  l.mapIdx (fun i b =>
    if dst ≤ i && i < dst + len then l.getD (src + (i - dst)) 0 else b)

/-- Zero-fill `len` bytes starting at `start` (used by the zeroed
allocation paths). -/
def zeroRange (l : List Nat) (start len : Nat) : List Nat :=
  l.mapIdx (fun i b => if start ≤ i && i < start + len then 0 else b)

/-- Modelled from the spec: `release::Arena::allocate_zeroed` — the
allocate-zeroed operation of the generic allocator capability (§6):
`alloc_raw` with the layout's size and alignment, with the fresh bytes
zero-filled; out-of-capacity failure is the same recoverable error with the
watermark unchanged. -/
def Arena.allocate_zeroed (s : Arena) (size align : Nat) :
    Except AllocError Nat × Arena :=
  match s.alloc_raw size align with
  | (.ok p, s') => (.ok p, { s' with data := zeroRange s'.data p size })
  | (.error e, s') => (.error e, s')

/-- Modelled from the spec: `release::Arena::grow`.  If the allocation at
`ptr` is the most recent one (its end equals the current watermark), the
watermark is bumped further and the block grows in place; otherwise a fresh
block of the new size/alignment is bump-allocated and the old contents are
copied forward.  Either path fails with the recoverable out-of-capacity
error when the new end would exceed `capacity`. -/
def Arena.grow (s : Arena) (ptr oldSize _oldAlign newSize newAlign : Nat) :
    Except AllocError Nat × Arena :=
  if ptr + oldSize = s.offset then
    if ptr + newSize > s.capacity then
      (.error .mk, s)
    else
      (.ok ptr, { s with offset := ptr + newSize })
  else
    match s.alloc_raw newSize newAlign with
    | (.ok newPtr, s') =>
        (.ok newPtr, { s' with data := copyRange s'.data ptr newPtr oldSize })
    | (.error e, s') => (.error e, s')

/-- Modelled from the spec: `release::Arena::shrink`.  If the allocation at
`ptr` is the most recent one, the watermark is retracted to the new smaller
end; otherwise this is a no-op that still reports success. -/
def Arena.shrink (s : Arena) (ptr oldSize _oldAlign newSize _newAlign : Nat) :
    Except AllocError Nat × Arena :=
  if ptr + oldSize = s.offset then
    (.ok ptr, { s with offset := ptr + newSize })
  else
    (.ok ptr, s)

/-- Modelled from the spec: `release::Arena::grow_zeroed` — same as `grow`,
but the newly added tail bytes are zero-filled. -/
def Arena.grow_zeroed (s : Arena) (ptr oldSize oldAlign newSize newAlign : Nat) :
    Except AllocError Nat × Arena :=
  match s.grow ptr oldSize oldAlign newSize newAlign with
  | (.ok p, s') =>
      (.ok p, { s' with data := zeroRange s'.data (p + oldSize) (newSize - oldSize) })
  | (.error e, s') => (.error e, s')

/-- Modelled from the spec: `release::Arena::alloc_uninit<T>` is a typed
convenience wrapping `alloc_raw` with `T`'s size and alignment.  Its return
type — `&mut MaybeUninit<T>` in the `debug.rs` wrapper's signature — carries
no error value, so an out-of-capacity failure cannot be reported as a
recoverable error and is a fatal condition here. -/
def Arena.alloc_uninit (s : Arena) (size align : Nat) :
    Except String (Nat × Arena) :=
  match s.alloc_raw size align with
  | (.ok p, s') => .ok (p, s')
  | (.error _, _) => .error "out of memory"

/-- Modelled from the spec: `release::Arena::alloc_uninit_slice<T>(count)` —
the same typed convenience for a slice of `count` elements of `T`'s size
and alignment; like `alloc_uninit`, it has no recoverable error channel. -/
def Arena.alloc_uninit_slice (s : Arena) (count size align : Nat) :
    Except String (Nat × Arena) :=
  s.alloc_uninit (count * size) align

end release

/-- The debug wrapper `Arena` enum from `src/arena/debug.rs`.  `Delegated`
holds the borrow generation number captured at construction (the shared
`release.Arena` it references is passed explicitly to each operation);
`Owned` holds its own arena. -/
inductive Arena where
  | Delegated (borrow : Nat)
  | Owned (arena : release.Arena)
deriving DecidableEq, Repr

/-- The message of the `assert!` in `Arena::delegate_target`. -/
def staleMsg : String := "Arena already borrowed by a newer ScratchArena"

/-- The condition of the `assert_eq!` in `impl Drop for Arena`. -/
def dropAssertMsg : String := "assertion failed: borrow == borrows"

/-- `Arena::delegate_target`: for `Delegated`, asserts that the captured
borrow number equals the shared arena's current counter (`assert!` message
`staleMsg`) and returns the shared arena; for `Owned`, returns the owned
arena. -/
def Arena.delegate_target : Arena → release.Arena → Except String release.Arena
  | .Delegated borrow, shared =>
      if borrow = shared.borrows then .ok shared else .error staleMsg
  | .Owned arena, _ => .ok arena

/-- `Arena::delegate_target_unchecked`: same selection without the
assertion. -/
def Arena.delegate_target_unchecked : Arena → release.Arena → release.Arena
  | .Delegated _, shared => shared
  | .Owned arena, _ => arena

/-- Write an updated target arena back to where `delegate_target` read it
from: the shared arena for `Delegated`, the handle's own arena for `Owned`.
This renders mutation through the reference the source's `delegate_target`
returns. -/
def Arena.writeTarget : Arena → release.Arena → release.Arena → Arena × release.Arena
  | .Delegated borrow, _, t => (.Delegated borrow, t)
  | .Owned _, shared, t => (.Owned t, shared)

/-- `Arena::delegated(delegate)`: reads the shared borrow counter, adds one
(`usize` arithmetic), stores the result both as the new handle's `borrow`
and back into the shared counter. -/
def Arena.delegated (shared : release.Arena) : Arena × release.Arena :=
  let borrow := (shared.borrows + 1) % USIZE
  (.Delegated borrow, { shared with borrows := borrow })

/-- `impl Drop for Arena`: for `Delegated`, reads the shared counter,
asserts it equals the handle's `borrow` (`assert_eq!`), and writes back the
counter minus one (`usize` arithmetic); for `Owned`, does nothing. -/
def Arena.drop : Arena → release.Arena → Except String release.Arena
  | .Delegated borrow, shared =>
      if borrow = shared.borrows then
        .ok { shared with borrows := (shared.borrows + (USIZE - 1)) % USIZE }
      else
        .error dropAssertMsg
  | .Owned _, shared => .ok shared

/-- `Arena::empty()`. -/
def Arena.empty : Arena :=
  .Owned release.Arena.empty

/-- `Arena::offset()`: `self.delegate_target().offset()`. -/
def Arena.offset (a : Arena) (shared : release.Arena) : Except String Nat :=
  (a.delegate_target shared).map (fun t => t.offset)

/-- `Arena::reset(to)`: `self.delegate_target().reset(to)`. -/
def Arena.reset (a : Arena) (shared : release.Arena) (to' : Nat) :
    Except String (Arena × release.Arena) := do
  let t ← a.delegate_target shared
  pure (a.writeTarget shared (t.reset to'))

/-- `Allocator::allocate` for the debug `Arena`:
`self.delegate_target().alloc_raw(layout.size(), layout.align())`. -/
def Arena.allocate (a : Arena) (shared : release.Arena) (size align : Nat) :
    Except String (Except AllocError Nat × Arena × release.Arena) := do
  let t ← a.delegate_target shared
  let (r, t') := t.alloc_raw size align
  pure (r, a.writeTarget shared t')

/-- `Allocator::deallocate` for the debug `Arena`:
`self.delegate_target().deallocate(ptr, layout)`. -/
def Arena.deallocate (a : Arena) (shared : release.Arena) (ptr size align : Nat) :
    Except String (Arena × release.Arena) := do
  let t ← a.delegate_target shared
  pure (a.writeTarget shared (t.deallocate ptr size align))

/-- `Allocator::grow` for the debug `Arena`:
`self.delegate_target().grow(ptr, old_layout, new_layout)`. -/
def Arena.grow (a : Arena) (shared : release.Arena)
    (ptr oldSize oldAlign newSize newAlign : Nat) :
    Except String (Except AllocError Nat × Arena × release.Arena) := do
  let t ← a.delegate_target shared
  let (r, t') := t.grow ptr oldSize oldAlign newSize newAlign
  pure (r, a.writeTarget shared t')

/-- `Allocator::shrink` for the debug `Arena`:
`self.delegate_target().shrink(ptr, old_layout, new_layout)`. -/
def Arena.shrink (a : Arena) (shared : release.Arena)
    (ptr oldSize oldAlign newSize newAlign : Nat) :
    Except String (Except AllocError Nat × Arena × release.Arena) := do
  let t ← a.delegate_target shared
  let (r, t') := t.shrink ptr oldSize oldAlign newSize newAlign
  pure (r, a.writeTarget shared t')

/-- `Allocator::allocate_zeroed` for the debug `Arena`:
`self.delegate_target().allocate_zeroed(layout)`. -/
def Arena.allocate_zeroed (a : Arena) (shared : release.Arena) (size align : Nat) :
    Except String (Except AllocError Nat × Arena × release.Arena) := do
  let t ← a.delegate_target shared
  let (r, t') := t.allocate_zeroed size align
  pure (r, a.writeTarget shared t')

/-- `Allocator::grow_zeroed` for the debug `Arena`:
`self.delegate_target().grow_zeroed(ptr, old_layout, new_layout)`. -/
def Arena.grow_zeroed (a : Arena) (shared : release.Arena)
    (ptr oldSize oldAlign newSize newAlign : Nat) :
    Except String (Except AllocError Nat × Arena × release.Arena) := do
  let t ← a.delegate_target shared
  let (r, t') := t.grow_zeroed ptr oldSize oldAlign newSize newAlign
  pure (r, a.writeTarget shared t')

/-- `Arena::alloc_uninit::<T>()` for the debug `Arena`:
`self.delegate_target().alloc_uninit()`, with `T`'s size and alignment made
explicit. -/
def Arena.alloc_uninit (a : Arena) (shared : release.Arena) (size align : Nat) :
    Except String (Nat × Arena × release.Arena) := do
  let t ← a.delegate_target shared
  let (p, t') ← t.alloc_uninit size align
  pure (p, a.writeTarget shared t')

/-- `Arena::alloc_uninit_slice::<T>(count)` for the debug `Arena`:
`self.delegate_target().alloc_uninit_slice(count)`. -/
def Arena.alloc_uninit_slice (a : Arena) (shared : release.Arena)
    (count size align : Nat) :
    Except String (Nat × Arena × release.Arena) := do
  let t ← a.delegate_target shared
  let (p, t') ← t.alloc_uninit_slice count size align
  pure (p, a.writeTarget shared t')

/-- A well-nested (balanced, last-created-first-released) sequence of
borrow-creation/release pairs: `node inner rest` means "create a borrow, run
`inner` nested inside it, release the borrow, then run `rest`". -/
inductive BorrowSeq where
  | nil
  | node (inner rest : BorrowSeq)
deriving DecidableEq, Repr

/-- Run a balanced borrow sequence against the shared arena: each `node`
constructs a `Delegated` handle with `Arena.delegated`, runs the nested
sequence, drops the handle, and continues. -/
def runSeq : BorrowSeq → release.Arena → Except String release.Arena
  | .nil, s => .ok s
  | .node inner rest, s =>
      let (h, s1) := Arena.delegated s
      match runSeq inner s1 with
      | .error e => .error e
      | .ok s2 =>
          match h.drop s2 with
          | .error e => .error e
          | .ok s3 => runSeq rest s3

/-! ### Helper lemmas -/

lemma usize_pos : 0 < USIZE := by
  norm_num [USIZE]

lemma wrap_succ_pred (x : Nat) (hx : x < USIZE) :
    ((x + 1) % USIZE + (USIZE - 1)) % USIZE = x := by
  have hU : 0 < USIZE := usize_pos
  rcases Nat.lt_or_ge (x + 1) USIZE with h | h
  · rw [Nat.mod_eq_of_lt h]
    have he : x + 1 + (USIZE - 1) = x + USIZE := by omega
    rw [he, Nat.add_mod_right, Nat.mod_eq_of_lt hx]
  · have hx1 : x + 1 = USIZE := by omega
    rw [hx1, Nat.mod_self, Nat.zero_add,
      Nat.mod_eq_of_lt (by omega : USIZE - 1 < USIZE)]
    omega

lemma wrap_pred (x : Nat) (h0 : 0 < x) (hx : x < USIZE) :
    (x + (USIZE - 1)) % USIZE = x - 1 := by
  have hU : 0 < USIZE := usize_pos
  have he : x + (USIZE - 1) = (x - 1) + USIZE := by omega
  rw [he, Nat.add_mod_right, Nat.mod_eq_of_lt (by omega)]

lemma writeTarget_self (a : Arena) (s t : release.Arena)
    (ht : a.delegate_target s = .ok t) :
    a.writeTarget s t = (a, s) := by
  cases a with
  | Delegated b =>
      simp only [Arena.delegate_target] at ht
      split at ht
      · simp only [Except.ok.injEq] at ht
        subst ht
        rfl
      · exact Except.noConfusion ht
  | Owned arena =>
      simp only [Arena.delegate_target, Except.ok.injEq] at ht
      subst ht
      rfl

lemma alloc_raw_oob (s : release.Arena) (size align : Nat)
    (h : release.alignUp s.offset align + size > s.capacity) :
    s.alloc_raw size align = (.error AllocError.mk, s) := by
  simp [release.Arena.alloc_raw, h]

lemma allocate_zeroed_oob (s : release.Arena) (size align : Nat)
    (h : release.alignUp s.offset align + size > s.capacity) :
    s.allocate_zeroed size align = (.error AllocError.mk, s) := by
  simp [release.Arena.allocate_zeroed, alloc_raw_oob s size align h]

lemma grow_oob_tail (s : release.Arena) (ptr oldSize oldAlign newSize newAlign : Nat)
    (he : ptr + oldSize = s.offset) (h : ptr + newSize > s.capacity) :
    s.grow ptr oldSize oldAlign newSize newAlign = (.error AllocError.mk, s) := by
  simp [release.Arena.grow, he, h]

lemma grow_oob_nontail (s : release.Arena) (ptr oldSize oldAlign newSize newAlign : Nat)
    (he : ptr + oldSize ≠ s.offset)
    (h : release.alignUp s.offset newAlign + newSize > s.capacity) :
    s.grow ptr oldSize oldAlign newSize newAlign = (.error AllocError.mk, s) := by
  simp [release.Arena.grow, he, alloc_raw_oob s newSize newAlign h]

lemma grow_zeroed_oob_tail (s : release.Arena)
    (ptr oldSize oldAlign newSize newAlign : Nat)
    (he : ptr + oldSize = s.offset) (h : ptr + newSize > s.capacity) :
    s.grow_zeroed ptr oldSize oldAlign newSize newAlign
      = (.error AllocError.mk, s) := by
  simp [release.Arena.grow_zeroed,
    grow_oob_tail s ptr oldSize oldAlign newSize newAlign he h]

lemma grow_zeroed_oob_nontail (s : release.Arena)
    (ptr oldSize oldAlign newSize newAlign : Nat)
    (he : ptr + oldSize ≠ s.offset)
    (h : release.alignUp s.offset newAlign + newSize > s.capacity) :
    s.grow_zeroed ptr oldSize oldAlign newSize newAlign
      = (.error AllocError.mk, s) := by
  simp [release.Arena.grow_zeroed,
    grow_oob_nontail s ptr oldSize oldAlign newSize newAlign he h]

lemma alloc_raw_borrows (s : release.Arena) (size align : Nat) :
    (s.alloc_raw size align).2.borrows = s.borrows := by
  simp only [release.Arena.alloc_raw]
  split <;> rfl

lemma grow_borrows (s : release.Arena) (ptr oldSize oldAlign newSize newAlign : Nat) :
    (s.grow ptr oldSize oldAlign newSize newAlign).2.borrows = s.borrows := by
  unfold release.Arena.grow
  have hb := alloc_raw_borrows s newSize newAlign
  split
  · split <;> rfl
  · rcases hr : s.alloc_raw newSize newAlign with ⟨r, s'⟩
    rw [hr] at hb
    rcases r with e | p <;> simpa using hb

lemma shrink_borrows (s : release.Arena) (ptr oldSize oldAlign newSize newAlign : Nat) :
    (s.shrink ptr oldSize oldAlign newSize newAlign).2.borrows = s.borrows := by
  unfold release.Arena.shrink
  split <;> rfl

/-! ### Claim theorems -/

/-- C2: constructing a `Delegated` handle assigns the handle's borrow number
to be the arena's generation counter value before construction plus one, and
sets the shared generation counter to that same value. -/
theorem delegated_ctor_increments_generation (s : release.Arena)
    (h : s.borrows + 1 < USIZE) :
    (Arena.delegated s).1 = .Delegated (s.borrows + 1) ∧
    (Arena.delegated s).2.borrows = s.borrows + 1 := by
  unfold Arena.delegated
  simp [Nat.mod_eq_of_lt h]

/-- Witness for C2 at the empty arena. -/
theorem delegated_ctor_increments_generation_witness :
    (Arena.delegated release.Arena.empty).1
        = .Delegated (release.Arena.empty.borrows + 1) ∧
    (Arena.delegated release.Arena.empty).2.borrows
        = release.Arena.empty.borrows + 1 :=
  delegated_ctor_increments_generation release.Arena.empty (by decide)

/-- C10: constructing a `Delegated` handle modifies only the shared
generation counter (incrementing it by one); the arena's watermark,
capacity, and buffer contents are unchanged. -/
theorem delegated_frame (s : release.Arena) (h : s.borrows + 1 < USIZE) :
    (Arena.delegated s).2.offset = s.offset ∧
    (Arena.delegated s).2.capacity = s.capacity ∧
    (Arena.delegated s).2.data = s.data ∧
    (Arena.delegated s).2.borrows = s.borrows + 1 := by
  unfold Arena.delegated
  simp [Nat.mod_eq_of_lt h]

/-- Witness for C10 at a concrete arena. -/
theorem delegated_frame_witness :
    (Arena.delegated { capacity := 64, offset := 10, borrows := 0, data := [7] }).2.offset
        = 10 ∧
    (Arena.delegated { capacity := 64, offset := 10, borrows := 0, data := [7] }).2.capacity
        = 64 ∧
    (Arena.delegated { capacity := 64, offset := 10, borrows := 0, data := [7] }).2.data
        = [7] ∧
    (Arena.delegated { capacity := 64, offset := 10, borrows := 0, data := [7] }).2.borrows
        = 0 + 1 :=
  delegated_frame { capacity := 64, offset := 10, borrows := 0, data := [7] } (by decide)

/-- C9: whenever the checked accessor `delegate_target` does not fail (an
`Owned` handle, or a `Delegated` handle whose borrow number equals the
arena's current generation), it returns the same underlying arena as the
unchecked accessor `delegate_target_unchecked`. -/
theorem checked_unchecked_agree (a : Arena) (s t : release.Arena)
    (h : a.delegate_target s = .ok t) :
    t = a.delegate_target_unchecked s := by
  cases a with
  | Delegated b =>
      simp only [Arena.delegate_target] at h
      split at h
      · simp only [Except.ok.injEq] at h
        subst h
        rfl
      · exact Except.noConfusion h
  | Owned arena =>
      simp only [Arena.delegate_target, Except.ok.injEq] at h
      subst h
      rfl

/-- Witness for C9 at an `Owned` handle over the empty arena. -/
theorem checked_unchecked_agree_witness :
    release.Arena.empty =
      (Arena.Owned release.Arena.empty).delegate_target_unchecked
        release.Arena.empty :=
  checked_unchecked_agree (Arena.Owned release.Arena.empty) release.Arena.empty
    release.Arena.empty rfl

/-- C1: for a `Delegated` handle, every access (allocation, offset read, or
reset) while the handle's captured borrow number differs from the arena's
current generation counter fails fatally with the stale-borrow condition
(the code's `assert!` message is
`"Arena already borrowed by a newer ScratchArena"`); when the numbers are
equal, the access succeeds and delegates to the underlying arena. -/
theorem delegated_access_checked (b : Nat) (s : release.Arena)
    (size align to' : Nat) :
    (b ≠ s.borrows →
      Arena.offset (.Delegated b) s = .error staleMsg ∧
      Arena.reset (.Delegated b) s to' = .error staleMsg ∧
      Arena.allocate (.Delegated b) s size align = .error staleMsg) ∧
    (b = s.borrows →
      Arena.offset (.Delegated b) s = .ok s.offset ∧
      Arena.reset (.Delegated b) s to' = .ok (.Delegated b, s.reset to') ∧
      Arena.allocate (.Delegated b) s size align =
        .ok ((s.alloc_raw size align).1, .Delegated b,
          (s.alloc_raw size align).2)) := by
  constructor
  · intro h
    refine ⟨?_, ?_, ?_⟩ <;>
      simp [Arena.offset, Arena.reset, Arena.allocate, Arena.delegate_target,
        h, Except.map]
  · intro h
    subst h
    refine ⟨?_, ?_, ?_⟩ <;>
      simp [Arena.offset, Arena.reset, Arena.allocate, Arena.delegate_target,
        Arena.writeTarget, Except.map]

/-- Witness for C1: a stale handle (borrow 1, counter 2) fails the offset
read; the current handle (borrow 2) reads the offset. -/
theorem delegated_access_checked_witness :
    Arena.offset (.Delegated 1)
        { capacity := 0, offset := 0, borrows := 2, data := [] }
      = .error staleMsg ∧
    Arena.offset (.Delegated 2)
        { capacity := 0, offset := 0, borrows := 2, data := [] }
      = .ok 0 :=
  ⟨((delegated_access_checked 1
      { capacity := 0, offset := 0, borrows := 2, data := [] } 0 1 0).1
      (by decide)).1,
   ((delegated_access_checked 2
      { capacity := 0, offset := 0, borrows := 2, data := [] } 0 1 0).2
      rfl).1⟩

/-- C3: dropping a `Delegated` handle asserts that the handle's borrow
number equals the arena's current generation counter — failing fatally when
a sibling borrow is released out of order — and, when the assertion holds,
decrements the shared counter by exactly one. -/
theorem drop_asserts_and_decrements (b : Nat) (s : release.Arena) :
    (b ≠ s.borrows → Arena.drop (.Delegated b) s = .error dropAssertMsg) ∧
    (b = s.borrows → 0 < s.borrows → s.borrows < USIZE →
      Arena.drop (.Delegated b) s = .ok { s with borrows := s.borrows - 1 }) := by
  constructor
  · intro h
    simp [Arena.drop, h]
  · intro h h0 hU
    subst h
    simp [Arena.drop, wrap_pred s.borrows h0 hU]

/-- Witness for C3: an out-of-order drop (borrow 1, counter 2) fails the
assertion; an in-order drop (borrow 2, counter 2) decrements the counter. -/
theorem drop_asserts_and_decrements_witness :
    Arena.drop (.Delegated 1)
        { capacity := 0, offset := 0, borrows := 2, data := [] }
      = .error dropAssertMsg ∧
    Arena.drop (.Delegated 2)
        { capacity := 0, offset := 0, borrows := 2, data := [] }
      = .ok { capacity := 0, offset := 0, borrows := 2 - 1, data := [] } :=
  ⟨(drop_asserts_and_decrements 1
      { capacity := 0, offset := 0, borrows := 2, data := [] }).1 (by decide),
   (drop_asserts_and_decrements 2
      { capacity := 0, offset := 0, borrows := 2, data := [] }).2 rfl
      (by decide) (by decide)⟩

/-- C4: after handle `A` then handle `B` are created on the same arena,
dropping `B` (the most recent borrow) succeeds and restores the generation
counter to `A`'s borrow number (the whole shared state returns to what it
was right after `A` was created), so that subsequent accesses through `A`
succeed without the stale-borrow failure. -/
theorem drop_newest_restores_older_borrow (s0 : release.Arena)
    (A B : Arena) (s1 s2 : release.Arena) (size align to' : Nat)
    (h1 : Arena.delegated s0 = (A, s1))
    (h2 : Arena.delegated s1 = (B, s2)) :
    Arena.drop B s2 = .ok s1 ∧
    Arena.delegate_target A s1 = .ok s1 ∧
    Arena.offset A s1 = .ok s1.offset ∧
    Arena.reset A s1 to' = .ok (A, s1.reset to') ∧
    Arena.allocate A s1 size align =
      .ok ((s1.alloc_raw size align).1, A, (s1.alloc_raw size align).2) := by
  simp only [Arena.delegated, Prod.mk.injEq] at h1 h2
  obtain ⟨hA, hs1⟩ := h1
  obtain ⟨hB, hs2⟩ := h2
  subst hA hs1 hB hs2
  have hlt : (s0.borrows + 1) % USIZE < USIZE := Nat.mod_lt _ usize_pos
  refine ⟨?_, ?_, ?_, ?_, ?_⟩
  · simp only [Arena.drop, if_pos rfl]
    rw [wrap_succ_pred _ hlt]
    simp
  · simp [Arena.delegate_target]
  · simp [Arena.offset, Arena.delegate_target, Except.map]
  · simp [Arena.reset, Arena.delegate_target, Arena.writeTarget, Except.map]
  · simp [Arena.allocate, Arena.delegate_target, Arena.writeTarget]

/-- Witness for C4: on the empty arena, dropping the second borrow (borrow
number 2) restores the state right after the first borrow (counter 1). -/
theorem drop_newest_restores_older_borrow_witness :
    Arena.drop (.Delegated 2)
        { capacity := 0, offset := 0, borrows := 2, data := [] }
      = .ok { capacity := 0, offset := 0, borrows := 1, data := [] } :=
  (drop_newest_restores_older_borrow release.Arena.empty
    (.Delegated 1) (.Delegated 2)
    { capacity := 0, offset := 0, borrows := 1, data := [] }
    { capacity := 0, offset := 0, borrows := 2, data := [] }
    0 1 0 rfl rfl).1

/-- C5: for every arbitrarily nested balanced sequence of borrow
creation/release pairs performed in last-created-first-released order, every
release passes its assertion and the shared generation counter (indeed the
whole shared state) returns to its value before the first borrow. -/
theorem balanced_borrow_seq_restores_counter (seq : BorrowSeq)
    (s : release.Arena) (h : s.borrows < USIZE) :
    runSeq seq s = .ok s := by
  induction seq generalizing s with
  | nil => rfl
  | node inner rest ih_inner ih_rest =>
      have hlt : (s.borrows + 1) % USIZE < USIZE := Nat.mod_lt _ usize_pos
      have h1 : runSeq inner { s with borrows := (s.borrows + 1) % USIZE } =
          .ok { s with borrows := (s.borrows + 1) % USIZE } :=
        ih_inner _ hlt
      simp only [runSeq, Arena.delegated]
      rw [h1]
      simp only [Arena.drop, if_pos rfl, wrap_succ_pred s.borrows h]
      exact ih_rest s h

/-- Witness for C5: a nested-then-sequential balanced borrow sequence on the
empty arena returns the state unchanged. -/
theorem balanced_borrow_seq_restores_counter_witness :
    runSeq (.node (.node .nil .nil) (.node .nil .nil)) release.Arena.empty
      = .ok release.Arena.empty :=
  balanced_borrow_seq_restores_counter
    (.node (.node .nil .nil) (.node .nil .nil)) release.Arena.empty (by decide)

/-- C6: for an `Owned` handle, every operation (allocation, offset read,
reset, grow, shrink, deallocate, and drop) passes straight through to the
wrapped arena: none can fail the stale-borrow check, the shared state is
untouched, and no generation counter is modified — the wrapped arena's
`borrows` field is preserved by every operation, including destruction. -/
theorem owned_passthrough (arena shared : release.Arena)
    (to' size align ptr oldSize oldAlign newSize newAlign : Nat) :
    Arena.offset (.Owned arena) shared = .ok arena.offset ∧
    Arena.reset (.Owned arena) shared to'
        = .ok (.Owned (arena.reset to'), shared) ∧
    (arena.reset to').borrows = arena.borrows ∧
    Arena.allocate (.Owned arena) shared size align =
      .ok ((arena.alloc_raw size align).1,
        .Owned (arena.alloc_raw size align).2, shared) ∧
    (arena.alloc_raw size align).2.borrows = arena.borrows ∧
    Arena.deallocate (.Owned arena) shared ptr size align
        = .ok (.Owned arena, shared) ∧
    Arena.grow (.Owned arena) shared ptr oldSize oldAlign newSize newAlign =
      .ok ((arena.grow ptr oldSize oldAlign newSize newAlign).1,
        .Owned (arena.grow ptr oldSize oldAlign newSize newAlign).2, shared) ∧
    (arena.grow ptr oldSize oldAlign newSize newAlign).2.borrows
        = arena.borrows ∧
    Arena.shrink (.Owned arena) shared ptr oldSize oldAlign newSize newAlign =
      .ok ((arena.shrink ptr oldSize oldAlign newSize newAlign).1,
        .Owned (arena.shrink ptr oldSize oldAlign newSize newAlign).2, shared) ∧
    (arena.shrink ptr oldSize oldAlign newSize newAlign).2.borrows
        = arena.borrows ∧
    Arena.drop (.Owned arena) shared = .ok shared :=
  ⟨rfl, rfl, rfl, rfl, alloc_raw_borrows arena size align, rfl, rfl,
    grow_borrows arena ptr oldSize oldAlign newSize newAlign, rfl,
    shrink_borrows arena ptr oldSize oldAlign newSize newAlign, rfl⟩

/-- C7 counterexample: not every allocating operation reports capacity
exhaustion as a recoverable error.  `alloc_uninit` (debug.rs routes it
through the checked accessor; its return type `&mut MaybeUninit<T>` carries
no error value) requested for one byte from the zero-capacity empty arena —
where the aligned size added to the offset exceeds the capacity — fails
fatally instead of returning a recoverable out-of-capacity error. -/
theorem alloc_uninit_capacity_exhaustion_fatal :
    Arena.alloc_uninit (.Owned release.Arena.empty) release.Arena.empty 1 1
      = .error "out of memory" := rfl

/-- C7 (amended): for every allocating operation that reports failure
through the allocator capability's error channel — `allocate`,
`allocate_zeroed`, `grow`, and `grow_zeroed` — whenever the checked
accessor succeeds and the operation's new allocation end exceeds the
arena's capacity (the aligned size added to the current offset for the
bump-allocating paths; the grown end for the in-place grow path), the
operation returns the recoverable out-of-capacity error (`AllocError`),
never a fatal failure, and leaves the handle and the arena state — in
particular the watermark — unchanged. -/
theorem alloc_ops_capacity_exhaustion_recoverable (a : Arena)
    (s t : release.Arena)
    (size align ptr oldSize oldAlign newSize newAlign : Nat)
    (ht : a.delegate_target s = .ok t) :
    (release.alignUp t.offset align + size > t.capacity →
      Arena.allocate a s size align = .ok (.error AllocError.mk, a, s) ∧
      Arena.allocate_zeroed a s size align
          = .ok (.error AllocError.mk, a, s)) ∧
    (ptr + oldSize = t.offset → ptr + newSize > t.capacity →
      Arena.grow a s ptr oldSize oldAlign newSize newAlign
          = .ok (.error AllocError.mk, a, s) ∧
      Arena.grow_zeroed a s ptr oldSize oldAlign newSize newAlign
          = .ok (.error AllocError.mk, a, s)) ∧
    (ptr + oldSize ≠ t.offset →
      release.alignUp t.offset newAlign + newSize > t.capacity →
      Arena.grow a s ptr oldSize oldAlign newSize newAlign
          = .ok (.error AllocError.mk, a, s) ∧
      Arena.grow_zeroed a s ptr oldSize oldAlign newSize newAlign
          = .ok (.error AllocError.mk, a, s)) := by
  have hw := writeTarget_self a s t ht
  refine ⟨fun hcap => ⟨?_, ?_⟩, fun he hcap => ⟨?_, ?_⟩,
    fun he hcap => ⟨?_, ?_⟩⟩
  · simp [Arena.allocate, ht, alloc_raw_oob t size align hcap, hw]
  · simp [Arena.allocate_zeroed, ht, allocate_zeroed_oob t size align hcap, hw]
  · simp [Arena.grow, ht,
      grow_oob_tail t ptr oldSize oldAlign newSize newAlign he hcap, hw]
  · simp [Arena.grow_zeroed, ht,
      grow_zeroed_oob_tail t ptr oldSize oldAlign newSize newAlign he hcap, hw]
  · simp [Arena.grow, ht,
      grow_oob_nontail t ptr oldSize oldAlign newSize newAlign he hcap, hw]
  · simp [Arena.grow_zeroed, ht,
      grow_zeroed_oob_nontail t ptr oldSize oldAlign newSize newAlign he hcap, hw]

/-- Witness for C7 (amended): over-capacity requests against the
zero-capacity empty arena through an `Owned` handle — a one-byte
allocation, an in-place (tail) grow, and a non-tail zeroed grow — all
return the recoverable error and change no state. -/
theorem alloc_ops_capacity_exhaustion_recoverable_witness :
    Arena.allocate (.Owned release.Arena.empty) release.Arena.empty 1 1
      = .ok (.error AllocError.mk, .Owned release.Arena.empty,
          release.Arena.empty) ∧
    Arena.grow (.Owned release.Arena.empty) release.Arena.empty 0 0 1 1 1
      = .ok (.error AllocError.mk, .Owned release.Arena.empty,
          release.Arena.empty) ∧
    Arena.grow_zeroed (.Owned release.Arena.empty) release.Arena.empty 5 0 1 1 1
      = .ok (.error AllocError.mk, .Owned release.Arena.empty,
          release.Arena.empty) :=
  ⟨((alloc_ops_capacity_exhaustion_recoverable (.Owned release.Arena.empty)
      release.Arena.empty release.Arena.empty 1 1 0 0 1 1 1 rfl).1
      (by decide)).1,
   ((alloc_ops_capacity_exhaustion_recoverable (.Owned release.Arena.empty)
      release.Arena.empty release.Arena.empty 1 1 0 0 1 1 1 rfl).2.1
      (by decide) (by decide)).1,
   ((alloc_ops_capacity_exhaustion_recoverable (.Owned release.Arena.empty)
      release.Arena.empty release.Arena.empty 1 1 5 0 1 1 1 rfl).2.2
      (by decide) (by decide)).2⟩

/-- C8 counterexample: `deallocate` is routed through the checked accessor,
so deallocating through a stale `Delegated` handle (borrow 1 while the
shared counter is 2 — the state after a second borrow of the same arena)
hits the fatal stale-borrow assertion instead of being a non-panicking
no-op. -/
theorem deallocate_stale_handle_fails :
    Arena.deallocate (.Delegated 1)
        { capacity := 0, offset := 0, borrows := 2, data := [] } 0 0 1
      = .error staleMsg := rfl

/-- C8 (amended): for every checked handle whose generation check passes
(`Owned`, or `Delegated` with borrow number equal to the arena's current
generation), every pointer, and every layout, `deallocate` is a no-op that
neither panics nor errors: it frees nothing and leaves the handle and the
arena state unchanged. -/
theorem deallocate_noop_when_current (a : Arena) (s t : release.Arena)
    (ptr size align : Nat) (ht : a.delegate_target s = .ok t) :
    Arena.deallocate a s ptr size align = .ok (a, s) := by
  cases a with
  | Delegated b =>
      simp only [Arena.delegate_target] at ht
      split at ht
      · rename_i hb
        simp [Arena.deallocate, Arena.delegate_target, hb, Arena.writeTarget,
          release.Arena.deallocate]
      · exact Except.noConfusion ht
  | Owned arena => rfl

/-- Witness for C8 (amended): the current `Delegated` handle (borrow 2,
counter 2) deallocates as a successful no-op. -/
theorem deallocate_noop_when_current_witness :
    Arena.deallocate (.Delegated 2)
        { capacity := 0, offset := 0, borrows := 2, data := [] } 0 0 1
      = .ok (.Delegated 2,
          { capacity := 0, offset := 0, borrows := 2, data := [] }) :=
  deallocate_noop_when_current (.Delegated 2)
    { capacity := 0, offset := 0, borrows := 2, data := [] }
    { capacity := 0, offset := 0, borrows := 2, data := [] } 0 0 1 rfl
